import Mathlib

/-!
# Verification of the musicdb replicated album store

Shallow embedding of the Go sources of the `musicdb` repository:
the album store (`album.go`), the command log (`cmdlog.go`), the
backend request handlers (backend server file), and the leader-side
raft consensus module (`raft.go`).  Go maps are embedded as
association lists with unique keys, Go `int` as `Int`, Go slices as
`List`.  Go runtime panics (index out of range) and `os.Exit` are made
explicit in the return types of the functions that can perform them.
The follower-side `AppendEntries` receiver is not part of the source
snapshot; where a claim needs it, it is modelled from the
specification and marked as such.
-/

set_option maxRecDepth 4000

/-- `Album` mirrors the Go struct `Album` of album.go: all fields are strings,
`Id` is the decimal string form of the key. -/
structure Album where
  Id : String
  Title : String
  Artist : String
  URL : String
  Year : String
deriving DecidableEq, Repr

/-- Association-list lookup for the embedded Go map `map[int]*Album`:
returns the value at key `k`, `none` when the key is absent (Go: the
zero value `nil`). -/
def mapGet (k : Int) : List (Int × Album) → Option Album
  | [] => none
  | (k₀, v) :: rest => if k = k₀ then some v else mapGet k rest

/-- Embedding of the Go map assignment `m[k] = v`: replaces the value at an
existing key, otherwise adds the binding at the end. -/
def mapInsert (k : Int) (v : Album) : List (Int × Album) → List (Int × Album)
  | [] => [(k, v)]
  | (k₀, v₀) :: rest =>
    if k = k₀ then (k, v) :: rest else (k₀, v₀) :: mapInsert k v rest

/-- Embedding of the Go `delete(m, k)`: removes the binding at key `k`. -/
def mapErase (k : Int) : List (Int × Album) → List (Int × Album)
  | [] => []
  | (k₀, v₀) :: rest =>
    if k = k₀ then rest else (k₀, v₀) :: mapErase k rest

/-- Embedding of the in-place mutation of the album stored at key `k`
(Go mutates through the `*Album` pointer): the binding at `k` is
replaced by `v`, all other bindings are untouched. -/
def mapSet (k : Int) (v : Album) : List (Int × Album) → List (Int × Album)
  | [] => []
  | (k₀, v₀) :: rest =>
    if k = k₀ then (k, v) :: rest else (k₀, v₀) :: mapSet k v rest

/-- `AlbumDB` mirrors the Go struct `AlbumDB`: the in-memory database
(`Data`, a map from int keys to albums) plus the monotone counter `CurrID`. -/
structure AlbumDB where
  Data : List (Int × Album)
  CurrID : Int
deriving DecidableEq, Repr

/-- Accumulator pass of the decimal digits of a Go integer literal:
`none` as soon as a non-digit byte is met (Go strconv: `ch - '0' > 9`). -/
def digitsVal : List Char → Nat → Option Nat
  | [], acc => some acc
  | c :: cs, acc =>
    if '0' ≤ c ∧ c ≤ '9' then digitsVal cs (acc * 10 + (c.toNat - '0'.toNat))
    else none

/-- Embedding of Go `strconv.Atoi` on a 64-bit platform: an optional `+`/`-`
sign followed by a non-empty run of decimal digits, with the result
required to fit a signed 64-bit integer; `none` mirrors a non-nil error. -/
def atoi (s : String) : Option Int :=
  match s.toList with
  | [] => none
  | c :: rest =>
    let neg := c = '-'
    let ds := if c = '-' ∨ c = '+' then rest else c :: rest
    if ds = [] then none
    else
      match digitsVal ds 0 with
      | none => none
      | some m =>
        let v : Int := if neg then -(m : Int) else (m : Int)
        if -9223372036854775808 ≤ v ∧ v ≤ 9223372036854775807 then some v else none

/-- `AddAlbum` of album.go: stores a new album under the key `CurrID`, with
`Id` the decimal string of that key, then increments the counter. -/
def AlbumDB.AddAlbum (db : AlbumDB) (title artist url year : String) : AlbumDB :=
  { Data := mapInsert db.CurrID
      { Id := toString db.CurrID, Title := title, Artist := artist, URL := url, Year := year }
      db.Data
    CurrID := db.CurrID + 1 }

/-- The five hardcoded albums of album.go, in source order. -/
def hardcodedAlbums : List (String × String × String × String) :=
  [("Disintigration", "The Cure", "https://lastfm.freetls.fastly.net/i/u/770x0/a0f446f0184f425e52fcdb32b9cf82e5.jpg", "1989"),
   ("Kids See Ghosts", "Kids See Ghosts", "https://lastfm.freetls.fastly.net/i/u/770x0/e9dd5c8d3294ca0a0f58cbf7ad5fd6a6.jpg", "2018"),
   ("Devotion", "Tirzah", "https://lastfm.freetls.fastly.net/i/u/770x0/1961645688c754bd7a26bd540b9f7a7d.jpg", "2018"),
   ("Untouched", "Secret Shine", "https://lastfm.freetls.fastly.net/i/u/770x0/9ff3fccfcb6cc587dca7e9bcbd551024.jpg", "1993"),
   ("Purple Haze", "Cam'ron", "https://lastfm.freetls.fastly.net/i/u/770x0/3025393c10b6cc84bf85cba203bdb7f6.jpg", "2004")]

/-- `NewAlbumDB` of album.go: starts from the empty map with `CurrID = 0` and
adds the five hardcoded albums (so the fresh store holds ids 0–4 and
`CurrID = 5`). -/
def NewAlbumDB : AlbumDB :=
  hardcodedAlbums.foldl
    (fun db q => db.AddAlbum q.1 q.2.1 q.2.2.1 q.2.2.2)
    { Data := [], CurrID := 0 }

/-- The two error outcomes of `RemoveAlbum`/`EditAlbum`/`GetAlbum` in
album.go: the `strconv` parse error (bad id) and the
`errors.New ("Album does not exist")` error (not found). -/
inductive StoreErr where
  | badId : StoreErr
  | notFound : StoreErr
deriving DecidableEq, Repr

/-- `RemoveAlbum` of album.go: parse the id with `strconv.Atoi`; if the key is
present delete it, otherwise report that the album does not exist.  The
counter is never decremented. -/
def AlbumDB.RemoveAlbum (db : AlbumDB) (id : String) : AlbumDB × Option StoreErr :=
  match atoi id with
  | none => (db, some .badId)
  | some n =>
    match mapGet n db.Data with
    | some _ => ({ db with Data := mapErase n db.Data }, none)
    | none => (db, some .notFound)

/-- The field update performed by `EditAlbum` of album.go: a non-empty
argument overwrites the field, an empty argument leaves it untouched;
the `Id` field is never written. -/
def updatedAlbum (al : Album) (title artist url year : String) : Album :=
  { al with
    Title := if title ≠ "" then title else al.Title
    Artist := if artist ≠ "" then artist else al.Artist
    URL := if url ≠ "" then url else al.URL
    Year := if year ≠ "" then year else al.Year }

/-- `EditAlbum` of album.go: parse the id; when the key is present, mutate the
stored album field by field (empty strings leave the field as is),
otherwise report the error. -/
def AlbumDB.EditAlbum (db : AlbumDB) (id title artist url year : String) :
    AlbumDB × Option StoreErr :=
  match atoi id with
  | none => (db, some .badId)
  | some n =>
    match mapGet n db.Data with
    | some al =>
      ({ db with Data := mapSet n (updatedAlbum al title artist url year) db.Data }, none)
    | none => (db, some .notFound)

/-- `GetAlbum` of album.go: parse the id and look the key up; `none` mirrors a
non-nil error (bad id or absent key), in which case the returned album
pointer is nil. -/
def AlbumDB.GetAlbum (db : AlbumDB) (id : String) : Option Album :=
  match atoi id with
  | none => none
  | some n => mapGet n db.Data

/-- The loop body of `GetAllAlbums` of album.go: starting from index `i`,
run the remaining `fuel` iterations, appending `Data[i]` whenever it is
not nil.  The Go loop runs `i` from `0` to `len(db.Data) - 1`. -/
def getAllFrom (db : AlbumDB) : Int → Nat → List Album
  | _, 0 => []
  | i, k + 1 =>
    match mapGet i db.Data with
    | some a => a :: getAllFrom db (i + 1) k
    | none => getAllFrom db (i + 1) k

/-- `GetAllAlbums` of album.go: scans keys `0 ≤ i < len(db.Data)` in ascending
order — the bound is the number of entries of the map, not the id
counter — and collects the albums present at those keys. -/
def AlbumDB.GetAllAlbums (db : AlbumDB) : List Album :=
  getAllFrom db 0 db.Data.length

/-- `DataMessage` of message.go: the client-gateway wire message.  The album
array holds album pointers, hence `Option Album` elements (nil is
`none`). -/
structure DataMessage where
  Method : String
  Index : String
  AlbumArray : List (Option Album)
  Status : Bool
deriving DecidableEq, Repr

/-- `handleGetAlbum` of the backend server: looks the album up; on error it
writes a `Status = false` message and then — there is no early return —
falls through and also writes the normal `Status = true` reply whose
album array holds the (then nil) album pointer.  The result lists the
messages written to the connection, in order. -/
def handleGetAlbum (db : AlbumDB) (index : String) : List DataMessage :=
  let r := db.GetAlbum index
  (if r = none then [{ Method := "", Index := "", AlbumArray := [], Status := false }] else [])
    ++ [{ Method := "GetAlbum", Index := "", AlbumArray := [r], Status := true }]

/-- `handleAddAlbum` of the backend server: adds the album taken from the
request and replies with a message whose only non-zero field is
`Status = true` (in particular the reply's `Index` is the empty string). -/
def handleAddAlbum (db : AlbumDB) (al : Album) : AlbumDB × DataMessage :=
  (db.AddAlbum al.Title al.Artist al.URL al.Year,
   { Method := "", Index := "", AlbumArray := [], Status := true })

/-- `Command` of cmdlog.go: a method name with its argument list. -/
structure Command where
  method : String
  args : List String
deriving DecidableEq, Repr

/-- `applyCommand` of cmdlog.go: dispatches a command to the album store;
commands with an unknown method or a wrong argument count are ignored
(the Go code only prints a message). -/
def applyCommand (db : AlbumDB) (cmd : Command) : AlbumDB :=
  if cmd.method = "AddAlbum" then
    if cmd.args.length = 4 then
      db.AddAlbum (cmd.args.getD 0 "") (cmd.args.getD 1 "") (cmd.args.getD 2 "") (cmd.args.getD 3 "")
    else db
  else if cmd.method = "EditAlbum" then
    if cmd.args.length = 5 then
      (db.EditAlbum (cmd.args.getD 0 "") (cmd.args.getD 1 "") (cmd.args.getD 2 "")
        (cmd.args.getD 3 "") (cmd.args.getD 4 "")).fst
    else db
  else if cmd.method = "RemoveAlbum" then
    if cmd.args.length = 1 then (db.RemoveAlbum (cmd.args.getD 0 "")).fst else db
  else db

/-- Reading of the claim's phrase "non-negative decimal integer": a non-empty
string of decimal digits, no sign.  Used only to compare the claim's
wording with what `strconv.Atoi` accepts. -/
def isNonNegDecimal (s : String) : Bool :=
  s.toList ≠ [] && s.toList.all (fun c => '0' ≤ c && c ≤ '9')

/-- `NodeState` of raft.go: the four node states. -/
inductive NodeState where
  | FOLLOWER : NodeState
  | CANDIDATE : NodeState
  | LEADER : NodeState
  | DEAD : NodeState
deriving DecidableEq, Repr

export NodeState (FOLLOWER CANDIDATE LEADER DEAD)

/-- `LogEntry` of cmdlog.go: a command together with the term it was received
in. -/
structure LogEntry where
  command : Command
  term : Int
deriving DecidableEq, Repr

/-- `ConsensusModule` of raft.go.  The per-peer arrays `nextIndex` and
`matchIndex` are embedded as functions on peer ids; the `peers` RPC-client
map is embedded by its key list (the struct comments describe both
`peerIds` and `peers` as holding all *other* nodes of the cluster).  The
mutex, the timer fields and the commit channel carry no data-state and are
omitted. -/
structure ConsensusModule where
  id : Int
  currentTerm : Int
  votedFor : Int
  log : List LogEntry
  state : NodeState
  commitIndex : Int
  lastApplied : Int
  votes : Int
  nextIndex : Int → Int
  matchIndex : Int → Int
  leader : String
  peerIds : List Int
  peers : List Int

/-- Pointwise update of an embedded per-peer array (`a[k] = v`). -/
def updArr (f : Int → Int) (k v : Int) : Int → Int :=
  fun x => if x = k then v else f x

/-- `lastLogTerm` of raft.go: the term of the last entry, `-1` for an empty
log. -/
def ConsensusModule.lastLogTerm (node : ConsensusModule) : Int :=
  match node.log.getLast? with
  | none => -1
  | some e => e.term

/-- `lastLogIndex` of raft.go: `len(log) - 1`. -/
def ConsensusModule.lastLogIndex (node : ConsensusModule) : Int :=
  (node.log.length : Int) - 1

/-- `UpdatePeerIndicies` of raft.go: for every peer id, set
`nextIndex[peer] = len(log)` and `matchIndex[peer] = -1`. -/
def ConsensusModule.UpdatePeerIndicies (node : ConsensusModule) : ConsensusModule :=
  { node with
    nextIndex := fun p => if p ∈ node.peerIds then (node.log.length : Int) else node.nextIndex p
    matchIndex := fun p => if p ∈ node.peerIds then -1 else node.matchIndex p }

/-- `hasQuorum` of raft.go: true when `votes * 2 > len(peerIds) + 1`. -/
def ConsensusModule.hasQuorum (node : ConsensusModule) (votes : Int) : Bool :=
  votes * 2 > (node.peerIds.length : Int) + 1

/-- `BecomeFollower` of raft.go: reset the node to the follower defaults at
the given term (the restarted election timer carries no data-state). -/
def ConsensusModule.BecomeFollower (node : ConsensusModule) (term : Int) : ConsensusModule :=
  { node with state := FOLLOWER, votedFor := -1, currentTerm := term }

/-- `BecomeLeader` of raft.go: switch to the leader state and reinitialize the
per-peer indices (the heartbeat loop it spawns is driven separately). -/
def ConsensusModule.BecomeLeader (node : ConsensusModule) : ConsensusModule :=
  ConsensusModule.UpdatePeerIndicies { node with state := LEADER }

/-- `StartElectionProcess` of raft.go: become a candidate, vote for yourself,
increment the term (the dispatched RequestVote RPCs carry this new term). -/
def ConsensusModule.StartElectionProcess (node : ConsensusModule) : ConsensusModule :=
  { node with
    state := CANDIDATE
    votedFor := node.id
    votes := 1
    currentTerm := node.currentTerm + 1 }

/-- `RequestVoteReply` of message.go. -/
structure RequestVoteReply where
  term : Int
  voteGranted : Bool
deriving DecidableEq, Repr

/-- `AppendEntriesArgs` of message.go. -/
structure AppendEntriesArgs where
  term : Int
  leaderId : Int
  prevLogIndex : Int
  prevLogTerm : Int
  entries : List LogEntry
  leaderCommit : Int
deriving DecidableEq, Repr

/-- `AppendEntriesReply` of message.go. -/
structure AppendEntriesReply where
  term : Int
  success : Bool
deriving DecidableEq, Repr

/-- `prepareRequestVoteForPeer` of raft.go after the RPC returns (`currTerm`
is the term the election was started with; an RPC error leaves the node
untouched).  If the reply's term exceeds the *saved* election term the node
steps down at the reply's term; otherwise, while still a candidate, a
granted vote at the saved term is counted, and the node becomes leader as
soon as `votes * 2 > len(node.peers)` — the size of the RPC-client map. -/
def ConsensusModule.prepareRequestVoteForPeer (node : ConsensusModule) (currTerm : Int)
    (rpcReply : Option RequestVoteReply) : ConsensusModule :=
  match rpcReply with
  | none => node
  | some reply =>
    let node₁ := if reply.term > currTerm then node.BecomeFollower reply.term else node
    if node₁.state ≠ CANDIDATE then node₁
    else if reply.term = currTerm ∧ reply.voteGranted then
      let node₂ := { node₁ with votes := node₁.votes + 1 }
      if node₂.votes * 2 > (node₂.peers.length : Int) then node₂.BecomeLeader else node₂
    else node₁

/-- Term of the log entry at (possibly out-of-range) index `i`; `none` marks
the indices on which the Go slice access would panic. -/
def logTermAt (l : List LogEntry) (i : Int) : Option Int :=
  if h : 0 ≤ i ∧ i.toNat < l.length then some (l.get ⟨i.toNat, h.2⟩).term else none

/-- The snapshot phase of `prepareAppendEntriesForPeer` of raft.go: read
`next = nextIndex[peer]`, compute `prev = next - 1`, `prevLogTerm` (`-1`
when `prev < 0`) and the entry slice `log[next:]`, and build the RPC
arguments.  `none` marks the states on which the Go slice expression
`log[next:]` (or the access `log[prev]`) would panic. -/
def prepareAppendEntriesArgs (node : ConsensusModule) (peer term : Int) :
    Option AppendEntriesArgs :=
  if 0 ≤ node.nextIndex peer ∧ node.nextIndex peer ≤ (node.log.length : Int) then
    some
      { term := term
        leaderId := node.id
        prevLogIndex := node.nextIndex peer - 1
        prevLogTerm :=
          if 0 ≤ node.nextIndex peer - 1
          then (logTermAt node.log (node.nextIndex peer - 1)).getD (-1) else -1
        entries := node.log.drop (node.nextIndex peer).toNat
        leaderCommit := node.commitIndex }
  else none

/-- One iteration step of the commit-index scan of `updateEntries` in
raft.go, with the loop counter `c` and the node's current `commitIndex`
in `acc`.  The Go loop tests `c < len(log)`, then increments `c` *before*
reading `log[c].Term`; `none` marks the out-of-range access (a Go panic).
When the entry's term is the current term, the leader itself plus every
peer with `matchIndex[peer] ≥ c` are counted, and on a quorum
`commitIndex` is set to `c`.  The `fuel` argument only bounds the
recursion and is chosen larger than the number of iterations. -/
def commitScanAux (node : ConsensusModule) : Nat → Int → Int → Option Int
  | 0, _, acc => some acc
  | fuel + 1, c, acc =>
    if c < (node.log.length : Int) then
      let c₁ := c + 1
      if h : 0 ≤ c₁ ∧ c₁.toNat < node.log.length then
        let e := node.log.get ⟨c₁.toNat, h.2⟩
        let acc₁ :=
          if e.term = node.currentTerm then
            let count : Int :=
              1 + ((node.peerIds.filter (fun p => node.matchIndex p ≥ c₁)).length : Int)
            if node.hasQuorum count then c₁ else acc
          else acc
        commitScanAux node fuel c₁ acc₁
      else none
    else some acc

/-- The commit-index scan of `updateEntries`, started (as in the Go source)
at `commitIndex + 1`, returning the final value of the node's
`commitIndex` field, or `none` when the scan performs an out-of-range
log access. -/
def commitScan (node : ConsensusModule) : Option Int :=
  commitScanAux node (((node.log.length : Int) - node.commitIndex).toNat + 1)
    (node.commitIndex + 1) node.commitIndex

/-- The index bookkeeping of `updateEntries` of raft.go: on a successful
append reply, `nextIndex[peer] = next + len(entries)` and
`matchIndex[peer] = nextIndex[peer] - 1`. -/
def replicatedNode (node : ConsensusModule) (peer next : Int)
    (entries : List LogEntry) : ConsensusModule :=
  { node with
    nextIndex := updArr node.nextIndex peer (next + (entries.length : Int))
    matchIndex := updArr node.matchIndex peer (next + (entries.length : Int) - 1) }

/-- `updateEntries` of raft.go: update the per-peer indices, then run the
commit-index scan.  `none` marks the runs on which the scan panics. -/
def ConsensusModule.updateEntries (node : ConsensusModule) (peer next : Int)
    (entries : List LogEntry) : Option ConsensusModule :=
  (commitScan (replicatedNode node peer next entries)).map
    (fun ci => { replicatedNode node peer next entries with commitIndex := ci })

/-- The reply-handling phase of `prepareAppendEntriesForPeer` of raft.go
(`term`, `next` and `entries` are the values snapshotted before the RPC):
a reply term above the saved term forces a step-down; otherwise, while
still leader at the reply's term, an unsuccessful reply sets
`nextIndex[peer] = next - 1` (no lower bound in the code) and a
successful one runs `updateEntries`.  `none` marks a panic inside
`updateEntries`. -/
def handleAppendEntriesReply (node : ConsensusModule) (term next : Int)
    (entries : List LogEntry) (peer : Int) (reply : AppendEntriesReply) :
    Option ConsensusModule :=
  if reply.term > term then some (node.BecomeFollower reply.term)
  else if node.state = LEADER ∧ term = reply.term then
    if reply.success then node.updateEntries peer next entries
    else some { node with nextIndex := updArr node.nextIndex peer (next - 1) }
  else some node

/-- Result of a `DoRPC` call for AppendEntries: either a transport error
(`err != nil`) or a reply. -/
inductive RpcResult where
  | transportError : RpcResult
  | reply : AppendEntriesReply → RpcResult

/-- Outcome of one whole `prepareAppendEntriesForPeer` invocation. -/
inductive AppendStep where
  | exitProcess : Int → AppendStep
  | panicked : AppendStep
  | next : ConsensusModule → AppendStep

/-- `prepareAppendEntriesForPeer` of raft.go, end to end: snapshot the
arguments (panicking if the slice is out of range), perform the RPC, and
on a transport error print it and call `os.Exit(1)` — otherwise handle
the reply. -/
def ConsensusModule.prepareAppendEntriesForPeer (node : ConsensusModule) (peer term : Int)
    (rpc : RpcResult) : AppendStep :=
  match prepareAppendEntriesArgs node peer term with
  | none => .panicked
  | some args =>
    match rpc with
    | .transportError => .exitProcess 1
    | .reply r =>
      match handleAppendEntriesReply node term (node.nextIndex peer) args.entries peer r with
      | none => .panicked
      | some node₁ => .next node₁

/-- Modelled from the spec: step 5 of "AppendEntries — follower side"
(§4.3), which is absent from the source snapshot.  For each new entry in
order at index `i`: a present entry with a conflicting term truncates the
log from `i`; a missing entry is appended. -/
def mergeEntries : List LogEntry → Int → List LogEntry → List LogEntry
  | log, _, [] => log
  | log, i, e :: rest =>
    let l₁ :=
      if i ≤ (log.length : Int) - 1 ∧ logTermAt log i ≠ some e.term
      then log.take i.toNat else log
    let l₂ := if i > (l₁.length : Int) - 1 then l₁ ++ [e] else l₁
    mergeEntries l₂ (i + 1) rest

/-- Modelled from the spec: the second and third steps of "AppendEntries —
follower side" (§4.3): step down when the leader's term is newer or we are
a candidate, and record the sender as the current leader.  The
`AppendEntries` receiver itself is absent from the source snapshot. -/
def followerStepDown (f : ConsensusModule) (args : AppendEntriesArgs) : ConsensusModule :=
  { (if args.term > f.currentTerm ∨ f.state = CANDIDATE
     then f.BecomeFollower args.term else f) with
    leader := toString args.leaderId }

/-- Modelled from the spec: steps 5–7 of "AppendEntries — follower side"
(§4.3) on the already stepped-down follower: merge the entries, advance
`commit_index` toward the leader's, reply success. -/
def followerAccept (f : ConsensusModule) (args : AppendEntriesArgs) :
    ConsensusModule × AppendEntriesReply :=
  let f₃ := { followerStepDown f args with
              log := mergeEntries (followerStepDown f args).log
                (args.prevLogIndex + 1) args.entries }
  let f₄ :=
    if args.leaderCommit > f₃.commitIndex
    then { f₃ with commitIndex := min args.leaderCommit f₃.lastLogIndex } else f₃
  (f₄, { term := f₄.currentTerm, success := true })

/-- Modelled from the spec: the full "AppendEntries — follower side" receiver
of §4.3, absent from the source snapshot.  Steps: (1) reject a stale
term; (2)–(3) step down / record leader; (4) reject a failed consistency
check (only when `prev_index ≥ 0`); (5)–(7) accept. -/
def appendEntriesFollower (f : ConsensusModule) (args : AppendEntriesArgs) :
    ConsensusModule × AppendEntriesReply :=
  if args.term < f.currentTerm then (f, { term := f.currentTerm, success := false })
  else if 0 ≤ args.prevLogIndex ∧
      (args.prevLogIndex > (followerStepDown f args).lastLogIndex ∨
        logTermAt (followerStepDown f args).log args.prevLogIndex ≠ some args.prevLogTerm) then
    (followerStepDown f args, { term := (followerStepDown f args).currentTerm, success := false })
  else
    followerAccept f args

/-- Commitment rule as the specification states it (§4.3.7): the largest
`N` with `commitIndex < N ≤ last_index` such that a strict majority of
replicas (leader included) have `matchIndex ≥ N` and the entry at `N`
carries the current term; `commitIndex` itself when no such `N` exists.
This definition follows the spec's words and is only compared against the
source's scan. -/
def commitAdvanceSpec (log : List LogEntry) (curTerm : Int) (matchIndex : Int → Int)
    (peerIds : List Int) (commitIndex : Int) : Int :=
  (List.range log.length).foldl
    (fun acc n =>
      let N : Int := (n : Int)
      if commitIndex < N ∧
          (1 + ((peerIds.filter (fun p => matchIndex p ≥ N)).length : Int)) * 2 >
            (peerIds.length : Int) + 1 ∧
          logTermAt log N = some curTerm
      then N else acc)
    commitIndex

/-- The node-visible events of a replica run that touch `currentTerm`:
starting an election (which dispatches RequestVote RPCs at the new term)
and handling the reply to a RequestVote RPC that was dispatched at
`savedTerm`. -/
inductive RaftEvent where
  | startElection : RaftEvent
  | voteReply : Int → RequestVoteReply → RaftEvent

/-- A replica together with the terms of the RequestVote RPCs it has
dispatched (and whose replies may still be in flight). -/
structure TraceState where
  node : ConsensusModule
  sentVoteTerms : List Int

/-- Apply one event: an election runs `StartElectionProcess` and records the
new term as dispatched; a vote reply runs the reply handler of
`prepareRequestVoteForPeer` with the saved election term. -/
def stepEvent (s : TraceState) : RaftEvent → TraceState
  | .startElection =>
    let nd := s.node.StartElectionProcess
    { node := nd, sentVoteTerms := nd.currentTerm :: s.sentVoteTerms }
  | .voteReply savedTerm reply =>
    { node := s.node.prepareRequestVoteForPeer savedTerm (some reply)
      sentVoteTerms := s.sentVoteTerms }

/-- An event is admissible when a vote reply answers an RPC that was really
dispatched: its saved term must be one of the dispatched election terms. -/
def validEvent (s : TraceState) : RaftEvent → Bool
  | .startElection => true
  | .voteReply savedTerm _ => s.sentVoteTerms.contains savedTerm

/-- Run a sequence of events. -/
def runTrace (s : TraceState) (events : List RaftEvent) : TraceState :=
  events.foldl stepEvent s

/-- A trace is valid when every event is admissible in the state it is
applied to. -/
def validTrace : TraceState → List RaftEvent → Bool
  | _, [] => true
  | s, e :: rest => validEvent s e && validTrace (stepEvent s e) rest

/-- A freshly booted replica of a three-node cluster (id 0, peers 1 and 2):
follower at term 0 with an empty log. -/
def node3 : ConsensusModule :=
  { id := 0, currentTerm := 0, votedFor := -1, log := [], state := FOLLOWER
    commitIndex := 0, lastApplied := 0, votes := 0
    nextIndex := fun _ => 0, matchIndex := fun _ => -1
    leader := "", peerIds := [1, 2], peers := [1, 2] }

/-- A freshly booted replica of a four-node cluster (id 0, peers 1, 2, 3). -/
def node4 : ConsensusModule :=
  { node3 with peerIds := [1, 2, 3], peers := [1, 2, 3] }

/-- The replica of the four-node cluster after its first election timeout:
candidate at term 1 holding its own vote. -/
def cand4 : ConsensusModule :=
  node4.StartElectionProcess

/-- The event sequence of the C2 counterexample run: ten successive election
timeouts (terms 1 to 10), then the still-in-flight reply to the term-1
RequestVote arrives from a peer that is meanwhile at term 5. -/
def c2Events : List RaftEvent :=
  List.replicate 10 .startElection ++ [.voteReply 1 { term := 5, voteGranted := false }]

/-- A leader of the three-node cluster at term 1 whose two-entry log is fully
replicated nowhere yet: `commitIndex = 0`, `nextIndex = 1` and
`matchIndex = -1` for both peers. -/
def c1Node : ConsensusModule :=
  { id := 0, currentTerm := 1, votedFor := 0
    log := [{ command := { method := "AddAlbum", args := ["t", "a", "u", "y"] }, term := 1 },
            { command := { method := "AddAlbum", args := ["t2", "a2", "u2", "y2"] }, term := 1 }]
    state := LEADER, commitIndex := 0, lastApplied := 0, votes := 2
    nextIndex := fun _ => 1, matchIndex := fun _ => -1
    leader := "", peerIds := [1, 2], peers := [1, 2] }

/-- A leader of the three-node cluster at term 1 with a one-entry log and
`nextIndex[1] = 1`: the AppendEntries sent to peer 1 is a pure heartbeat
with `prev = 0`. -/
def c7Leader : ConsensusModule :=
  { id := 0, currentTerm := 1, votedFor := 0
    log := [{ command := { method := "AddAlbum", args := ["t", "a", "u", "y"] }, term := 1 }]
    state := LEADER, commitIndex := 0, lastApplied := 0, votes := 2
    nextIndex := fun _ => 1, matchIndex := fun _ => -1
    leader := "", peerIds := [1, 2], peers := [1, 2] }

/-- A follower at the same term as `c7Leader` but with an empty log, so the
consistency check at `prev = 0` fails and it answers an unsuccessful
same-term reply. -/
def c7Follower : ConsensusModule :=
  { id := 1, currentTerm := 1, votedFor := 0, log := [], state := FOLLOWER
    commitIndex := 0, lastApplied := 0, votes := 0
    nextIndex := fun _ => 0, matchIndex := fun _ => -1
    leader := "", peerIds := [0, 2], peers := [0, 2] }

/-- The AppendEntries arguments `c7Leader` snapshots for peer 1. -/
def c7Args : AppendEntriesArgs :=
  { term := 1, leaderId := 0, prevLogIndex := 0, prevLogTerm := 1
    entries := [], leaderCommit := 0 }

/-- `c7Leader` after processing the unsuccessful same-term reply:
`nextIndex[1]` decremented from 1 to 0. -/
def c7After : ConsensusModule :=
  { c7Leader with nextIndex := updArr c7Leader.nextIndex 1 0 }

/-- The fresh store after removing id 2 (a reachable store state). -/
def dbAfterRemove2 : AlbumDB :=
  (NewAlbumDB.RemoveAlbum "2").fst

/-- The fresh store after its first `AddAlbum`. -/
def dbAfterFirstAdd : AlbumDB :=
  NewAlbumDB.AddAlbum "Kid A" "Radiohead" "u" "2000"

theorem mapGet_mapSet_self {n : Int} {al : Album} (v : Album) {l : List (Int × Album)}
    (h : mapGet n l = some al) : mapGet n (mapSet n v l) = some v := by
  induction l with
  | nil => simp [mapGet] at h
  | cons p rest ih =>
    obtain ⟨k₀, v₀⟩ := p
    by_cases hk : n = k₀
    · simp [mapGet, mapSet, hk]
    · simp only [mapGet, mapSet, if_neg hk] at h ⊢
      exact ih h

theorem mapGet_mapSet_ne {m n : Int} (hmn : m ≠ n) (v : Album) (l : List (Int × Album)) :
    mapGet m (mapSet n v l) = mapGet m l := by
  induction l with
  | nil => simp [mapSet]
  | cons p rest ih =>
    obtain ⟨k₀, v₀⟩ := p
    by_cases hk : n = k₀
    · subst hk
      simp [mapGet, mapSet, hmn, if_neg hmn]
    · by_cases hm : m = k₀ <;> simp [mapGet, mapSet, hk, hm, ih]

theorem mapSet_self {n : Int} {al : Album} {l : List (Int × Album)}
    (h : mapGet n l = some al) : mapSet n al l = l := by
  induction l with
  | nil => rfl
  | cons p rest ih =>
    obtain ⟨k₀, v₀⟩ := p
    by_cases hk : n = k₀
    · subst hk
      have hv : v₀ = al := by simpa [mapGet] using h
      subst hv
      simp [mapSet]
    · simp only [mapGet, if_neg hk] at h
      simp [mapSet, hk, ih h]

theorem updatedAlbum_flip (al : Album) (title artist url year : String) :
    updatedAlbum al title artist url year =
      { Id := al.Id
        Title := if title = "" then al.Title else title
        Artist := if artist = "" then al.Artist else artist
        URL := if url = "" then al.URL else url
        Year := if year = "" then al.Year else year } := by
  cases al
  unfold updatedAlbum
  by_cases ht : title = "" <;> by_cases ha : artist = "" <;>
    by_cases hu : url = "" <;> by_cases hy : year = "" <;>
    simp [ht, ha, hu, hy]

theorem updatedAlbum_empty (al : Album) : updatedAlbum al "" "" "" "" = al := by
  cases al
  simp [updatedAlbum]

/-- Claim C4: on the reachable store obtained by removing id 2 from the fresh
store, `GetAllAlbums` returns only the albums at ids 0, 1 and 3 — the
present album with id 4 is skipped because the scan stops at the map
size — refuting that every non-deleted id appears in the listing. -/
theorem claim_C4 :
    (mapGet 4 dbAfterRemove2.Data).map Album.Id = some "4" ∧
    dbAfterRemove2.GetAllAlbums.map Album.Id = ["0", "1", "3"] ∧
    "4" ∉ dbAfterRemove2.GetAllAlbums.map Album.Id := by
  decide

/-- Claim C6 (counterexample): the freshly initialized store already holds the
five hardcoded albums, so the first `AddAlbum` is assigned id "5", the
subsequent read returns six entries (not one), and the backend's add
reply carries an empty `Index`, not "0". -/
theorem claim_C6_counterexample :
    NewAlbumDB.CurrID = 5 ∧
    (mapGet 5 dbAfterFirstAdd.Data).map Album.Id = some "5" ∧
    dbAfterFirstAdd.GetAllAlbums.length = 6 ∧
    dbAfterFirstAdd.GetAllAlbums.map Album.Id ≠ ["0"] ∧
    (handleAddAlbum NewAlbumDB
      { Id := "", Title := "Kid A", Artist := "Radiohead", URL := "u", Year := "2000" }).snd.Index
      ≠ "0" := by
  decide

/-- Claim C6 (amended): the first `AddAlbum` command applied to a freshly
initialized replica store is assigned id "5" (the store is pre-seeded
with five hardcoded albums at ids 0–4), the reply carries `Status = true`
with an empty index, and a subsequent read returns the six-entry list
with ids "0" through "5". -/
theorem claim_C6 :
    applyCommand NewAlbumDB { method := "AddAlbum", args := ["Kid A", "Radiohead", "u", "2000"] }
      = dbAfterFirstAdd ∧
    mapGet 5 dbAfterFirstAdd.Data =
      some { Id := "5", Title := "Kid A", Artist := "Radiohead", URL := "u", Year := "2000" } ∧
    dbAfterFirstAdd.GetAllAlbums.map Album.Id = ["0", "1", "2", "3", "4", "5"] ∧
    (handleAddAlbum NewAlbumDB
      { Id := "", Title := "Kid A", Artist := "Radiohead", URL := "u", Year := "2000" }).snd
      = { Method := "", Index := "", AlbumArray := [], Status := true } := by
  decide

/-- Claim C8 (counterexample): the id "-1" is not a non-negative decimal
integer, yet `RemoveAlbum` and `EditAlbum` on the fresh store answer
NotFound for it, not BadId — `strconv.Atoi` accepts signed integers. -/
theorem claim_C8_counterexample :
    isNonNegDecimal "-1" = false ∧
    (NewAlbumDB.RemoveAlbum "-1").snd = some StoreErr.notFound ∧
    (NewAlbumDB.RemoveAlbum "-1").snd ≠ some StoreErr.badId ∧
    (NewAlbumDB.EditAlbum "-1" "x" "" "" "").snd = some StoreErr.notFound := by
  decide

/-- Claim C8 (amended): for every id string, edit and remove return BadId
exactly when the id fails `strconv.Atoi` parsing (an optionally signed
decimal integer fitting 64 bits), and NotFound exactly when the id parses
— possibly to a negative integer — but no entry is stored at it; on
either error the store is unchanged. -/
theorem claim_C8 (db : AlbumDB) (id title artist url year : String) :
    ((db.RemoveAlbum id).snd = some StoreErr.badId ↔ atoi id = none) ∧
    ((db.EditAlbum id title artist url year).snd = some StoreErr.badId ↔ atoi id = none) ∧
    ((db.RemoveAlbum id).snd = some StoreErr.notFound ↔
      ∃ n, atoi id = some n ∧ mapGet n db.Data = none) ∧
    ((db.EditAlbum id title artist url year).snd = some StoreErr.notFound ↔
      ∃ n, atoi id = some n ∧ mapGet n db.Data = none) ∧
    ((db.RemoveAlbum id).snd ≠ none → (db.RemoveAlbum id).fst = db) ∧
    ((db.EditAlbum id title artist url year).snd ≠ none →
      (db.EditAlbum id title artist url year).fst = db) := by
  unfold AlbumDB.RemoveAlbum AlbumDB.EditAlbum
  rcases hatoi : atoi id with _ | n
  · simp [hatoi]
  · rcases hget : mapGet n db.Data with _ | al <;> simp [hatoi, hget]

/-- Claim C8 witness: the amended characterization evaluated at the fresh
store and the unparseable id "abc". -/
theorem claim_C8_witness :
    ((NewAlbumDB.RemoveAlbum "abc").snd = some StoreErr.badId ↔ atoi "abc" = none) ∧
    ((NewAlbumDB.RemoveAlbum "abc").snd ≠ none →
      (NewAlbumDB.RemoveAlbum "abc").fst = NewAlbumDB) := by
  have h := claim_C8 NewAlbumDB "abc" "" "" "" ""
  exact ⟨h.1, h.2.2.2.2.1⟩

/-- Claim C9: editing an album that is present leaves each field whose
argument is empty unchanged, overwrites each field whose argument is
non-empty, never touches other entries or the counter, and with all four
field arguments empty the edit is the identity on the store. -/
theorem claim_C9 (db : AlbumDB) (id : String) (n : Int) (al : Album)
    (title artist url year : String)
    (hid : atoi id = some n) (hal : mapGet n db.Data = some al) :
    (db.EditAlbum id title artist url year).snd = none ∧
    mapGet n (db.EditAlbum id title artist url year).fst.Data =
      some { Id := al.Id
             Title := if title = "" then al.Title else title
             Artist := if artist = "" then al.Artist else artist
             URL := if url = "" then al.URL else url
             Year := if year = "" then al.Year else year } ∧
    (∀ m, m ≠ n →
      mapGet m (db.EditAlbum id title artist url year).fst.Data = mapGet m db.Data) ∧
    (db.EditAlbum id title artist url year).fst.CurrID = db.CurrID ∧
    (title = "" → artist = "" → url = "" → year = "" →
      db.EditAlbum id title artist url year = (db, none)) := by
  simp only [AlbumDB.EditAlbum, hid, hal]
  refine ⟨trivial, ?_, ?_, trivial, ?_⟩
  · rw [mapGet_mapSet_self (updatedAlbum al title artist url year) hal, updatedAlbum_flip]
  · intro m hm
    exact mapGet_mapSet_ne hm (updatedAlbum al title artist url year) db.Data
  · intro ht ha hu hy
    subst ht; subst ha; subst hu; subst hy
    rw [updatedAlbum_empty, mapSet_self hal]

/-- Claim C9 witness: editing id 1 of the fresh store with all fields empty
is the identity. -/
theorem claim_C9_witness :
    NewAlbumDB.EditAlbum "1" "" "" "" "" = (NewAlbumDB, none) := by
  exact (claim_C9 NewAlbumDB "1" 1
    { Id := "1", Title := "Kids See Ghosts", Artist := "Kids See Ghosts",
      URL := "https://lastfm.freetls.fastly.net/i/u/770x0/e9dd5c8d3294ca0a0f58cbf7ad5fd6a6.jpg",
      Year := "2018" }
    "" "" "" "" (by decide) (by decide)).2.2.2.2 rfl rfl rfl rfl

/-- Claim C10: a `GetAlbum` request whose id fails to parse or names no stored
album makes the backend write two reply messages on the connection: first
a bare `Status = false` message, then — the error branch does not return —
the normal `Status = true` reply whose album array holds the nil album. -/
theorem claim_C10 (db : AlbumDB) (index : String)
    (h : atoi index = none ∨ ∀ n, atoi index = some n → mapGet n db.Data = none) :
    handleGetAlbum db index =
      [{ Method := "", Index := "", AlbumArray := [], Status := false },
       { Method := "GetAlbum", Index := "", AlbumArray := [none], Status := true }] := by
  have hg : db.GetAlbum index = none := by
    unfold AlbumDB.GetAlbum
    rcases hx : atoi index with _ | n
    · rfl
    · rcases h with h | h
      · rw [hx] at h; cases h
      · exact h n hx
  simp [handleGetAlbum, hg]

/-- Claim C10 witness: the two-message reply observed on the fresh store for
the unparseable id "abc". -/
theorem claim_C10_witness :
    handleGetAlbum NewAlbumDB "abc" =
      [{ Method := "", Index := "", AlbumArray := [], Status := false },
       { Method := "GetAlbum", Index := "", AlbumArray := [none], Status := true }] := by
  exact claim_C10 NewAlbumDB "abc" (Or.inl (by decide))

/-- Claim C1: on a term-1 leader with two term-1 entries, `commitIndex = 0`
and a successful reply that raises `matchIndex[1]` to 1, the source's
commit scan performs an out-of-range log access (a Go panic) instead of
advancing the commit index, while the spec's commitment rule (§4.3.7)
advances it to 1: the scan increments past the candidate
`commit_index + 1 = last_index` before the term check and reads
`log[len(log)]`. -/
theorem claim_C1 :
    c1Node.updateEntries 1 1
      [{ command := { method := "AddAlbum", args := ["t2", "a2", "u2", "y2"] }, term := 1 }]
      = none ∧
    commitAdvanceSpec c1Node.log 1 (updArr c1Node.matchIndex 1 1) c1Node.peerIds 0 = 1 := by
  exact ⟨rfl, by decide⟩

/-- Claim C2: `currentTerm` is not non-decreasing.  In a valid run of the
three-node replica — ten election timeouts take it to term 10, then the
still-in-flight reply to its term-1 RequestVote arrives from a peer at
term 5 — the reply handler compares the reply term against the saved
election term (5 > 1) and calls `BecomeFollower(5)`, lowering
`currentTerm` from 10 to 5. -/
theorem claim_C2 :
    validTrace { node := node3, sentVoteTerms := [] } c2Events = true ∧
    (runTrace { node := node3, sentVoteTerms := [] } (c2Events.take 10)).node.currentTerm = 10 ∧
    (runTrace { node := node3, sentVoteTerms := [] } c2Events).node.currentTerm = 5 := by
  decide

/-- Claim C3: a candidate of the four-node cluster (three peers) counts one
granted same-term reply and immediately becomes LEADER with 2 votes,
because the code tests `votes * 2 > len(node.peers)` (= 3) instead of a
strict majority of the cluster size — the file's own `hasQuorum`
(votes * 2 > peers + 1) rejects 2 votes out of 4 nodes. -/
theorem claim_C3 :
    cand4.state = CANDIDATE ∧ cand4.currentTerm = 1 ∧ cand4.votes = 1 ∧
    (cand4.prepareRequestVoteForPeer 1 (some { term := 1, voteGranted := true })).votes = 2 ∧
    (cand4.prepareRequestVoteForPeer 1 (some { term := 1, voteGranted := true })).state
      = LEADER ∧
    cand4.hasQuorum 2 = false := by
  decide

/-- Claim C5: when the AppendEntries RPC to a peer fails with a transport
error, `prepareAppendEntriesForPeer` prints the error and calls
`os.Exit(1)` — the replica process terminates instead of retrying on the
next heartbeat. -/
theorem claim_C5 (node : ConsensusModule) (peer term : Int) (args : AppendEntriesArgs)
    (h : prepareAppendEntriesArgs node peer term = some args) :
    node.prepareAppendEntriesForPeer peer term RpcResult.transportError
      = AppendStep.exitProcess 1 := by
  unfold ConsensusModule.prepareAppendEntriesForPeer
  rw [h]

/-- Claim C5 witness: the term-1 leader with a well-formed snapshot for
peer 1 exits the process on a transport error. -/
theorem claim_C5_witness :
    c7Leader.prepareAppendEntriesForPeer 1 1 RpcResult.transportError
      = AppendStep.exitProcess 1 := by
  exact claim_C5 c7Leader 1 1 c7Args (by decide)

theorem followerAccept_success (f : ConsensusModule) (args : AppendEntriesArgs) :
    (followerAccept f args).snd.success = true := by
  rfl

theorem followerReply_false_same_term (f : ConsensusModule) (args : AppendEntriesArgs)
    (hs : (appendEntriesFollower f args).snd.success = false)
    (ht : (appendEntriesFollower f args).snd.term = args.term) :
    0 ≤ args.prevLogIndex := by
  by_cases h₁ : args.term < f.currentTerm
  · rw [appendEntriesFollower, if_pos h₁] at ht
    simp only at ht
    omega
  · by_cases h₂ : 0 ≤ args.prevLogIndex ∧
      (args.prevLogIndex > (followerStepDown f args).lastLogIndex ∨
        logTermAt (followerStepDown f args).log args.prevLogIndex ≠ some args.prevLogTerm)
    · exact h₂.1
    · rw [appendEntriesFollower, if_neg h₁, if_neg h₂, followerAccept_success] at hs
      cases hs

/-- Claim C7: a leader still in the same term that processes an unsuccessful
AppendEntries reply decrements `nextIndex[peer]` by exactly one, and
after processing any reply produced by a (spec-modelled) follower the
invariant `0 ≤ nextIndex[peer] ≤ len(log)` is preserved, keeping the next
log slice for that peer in range: a conforming follower only answers an
unsuccessful same-term reply when `prev_index ≥ 0`, i.e. when
`nextIndex[peer] ≥ 1`. -/
theorem claim_C7 (nd f : ConsensusModule) (peer term : Int) (args : AppendEntriesArgs)
    (nd' : ConsensusModule)
    (hprep : prepareAppendEntriesArgs nd peer term = some args)
    (hrun : handleAppendEntriesReply nd term (nd.nextIndex peer) args.entries peer
      (appendEntriesFollower f args).snd = some nd') :
    (0 ≤ nd'.nextIndex peer ∧ nd'.nextIndex peer ≤ (nd'.log.length : Int)) ∧
    ((appendEntriesFollower f args).snd.success = false →
      (appendEntriesFollower f args).snd.term = term →
      nd.state = LEADER → nd'.nextIndex peer = nd.nextIndex peer - 1) := by
  unfold prepareAppendEntriesArgs at hprep
  split at hprep
  case isFalse => exact absurd hprep (by simp)
  case isTrue hcond =>
  obtain ⟨hterm, hprev, hentries⟩ :
      args.term = term ∧ args.prevLogIndex = nd.nextIndex peer - 1 ∧
        args.entries = nd.log.drop (nd.nextIndex peer).toNat := by
    injection hprep with h
    rw [← h]
    exact ⟨rfl, rfl, rfl⟩
  have hkey := followerReply_false_same_term f args
  set rep := (appendEntriesFollower f args).snd with hrepdef
  unfold handleAppendEntriesReply at hrun
  by_cases hgt : rep.term > term
  · rw [if_pos hgt] at hrun
    injection hrun with hnd
    subst hnd
    refine ⟨?_, ?_⟩
    · simpa [ConsensusModule.BecomeFollower] using hcond
    · intro _ ht _
      rw [ht] at hgt
      exact absurd hgt (lt_irrefl term)
  · rw [if_neg hgt] at hrun
    by_cases hld : nd.state = LEADER ∧ term = rep.term
    · rw [if_pos hld] at hrun
      by_cases hsucc : rep.success = true
      · rw [if_pos hsucc] at hrun
        unfold ConsensusModule.updateEntries at hrun
        rw [Option.map_eq_some'] at hrun
        obtain ⟨ci, _, hnd⟩ := hrun
        subst hnd
        refine ⟨?_, ?_⟩
        · simp only [replicatedNode, updArr, hentries, List.length_drop, if_pos rfl]
          omega
        · intro hs _ _
          rw [hsucc] at hs
          cases hs
      · rw [if_neg hsucc] at hrun
        injection hrun with hnd
        subst hnd
        have hfalse : rep.success = false := by
          cases hb : rep.success
          · rfl
          · exact absurd hb hsucc
        have hp : 0 ≤ args.prevLogIndex := by
          refine hkey hfalse ?_
          rw [hterm]
          exact hld.2.symm
        rw [hprev] at hp
        refine ⟨?_, ?_⟩
        · simp only [updArr, if_pos rfl]
          omega
        · intro _ _ _
          simp [updArr]
    · rw [if_neg hld] at hrun
      injection hrun with hnd
      subst hnd
      exact ⟨hcond, fun _ ht hl => absurd ⟨hl, ht.symm⟩ hld⟩

/-- Claim C7 witness: the term-1 leader with `nextIndex[1] = 1` sends a
heartbeat with `prev = 0` to an empty-log follower; the follower's
unsuccessful same-term reply makes the leader decrement `nextIndex[1]`
to 0, which stays within range. -/
theorem claim_C7_witness :
    prepareAppendEntriesArgs c7Leader 1 1 = some c7Args ∧
    handleAppendEntriesReply c7Leader 1 (c7Leader.nextIndex 1) c7Args.entries 1
      (appendEntriesFollower c7Follower c7Args).snd = some c7After ∧
    (0 ≤ c7After.nextIndex 1 ∧ c7After.nextIndex 1 ≤ (c7After.log.length : Int)) ∧
    c7After.nextIndex 1 = c7Leader.nextIndex 1 - 1 := by
  have h1 : prepareAppendEntriesArgs c7Leader 1 1 = some c7Args := by decide
  have h2 : handleAppendEntriesReply c7Leader 1 (c7Leader.nextIndex 1) c7Args.entries 1
      (appendEntriesFollower c7Follower c7Args).snd = some c7After := by rfl
  have h := claim_C7 c7Leader c7Follower 1 1 c7Args c7After h1 h2
  exact ⟨h1, h2, h.1, h.2 (by decide) (by decide) rfl⟩
